import Mathlib

/-!
Verification of the Store API service (`app/main.py`): a shallow embedding of
the SQLAlchemy data model and the FastAPI endpoint handlers as pure Lean
functions over an explicit database state, together with theorems settling
the specified properties of products, carts, cart line-items and favorites.

Prices (Python floats) are modelled as exact rationals; `round(x, 2)` is
modelled as round-half-to-even (Python's rounding mode) on rationals.
Machine string matching (`ilike`) is modelled by an executable SQL LIKE
pattern matcher over lower-cased character lists.
-/

/-- A row of the `products` table (`ProductORM`). -/
structure ProductORM where
  id : Nat
  name : String
  description : Option String := none
  price : ℚ
  discount_percentage : Option ℚ := none
  rating : Option ℚ := none
  stock : Option Int := none
  brand : Option String := none
  category : Option String := none
  thumbnail : Option String := none
  images : Option String := none
deriving DecidableEq, Repr

/-- A row of the `cart_items` table (`CartItemORM`). -/
structure CartItemORM where
  id : Nat
  cart_id : Nat
  product_id : Nat
  quantity : Nat
deriving DecidableEq, Repr

/-- A row of the `favorites` table (`FavoriteORM`); `product_id` carries a
plain foreign key to `products.id` with a unique constraint and no
`ondelete` action. -/
structure FavoriteORM where
  id : Nat
  product_id : Nat
deriving DecidableEq, Repr

/-- The whole database state: the four tables (a cart row is just its id)
plus autoincrement counters for the surrogate keys the handlers insert. -/
structure DB where
  products : List ProductORM
  carts : List Nat
  cart_items : List CartItemORM
  favorites : List FavoriteORM
  next_cart_item_id : Nat := 1
  next_favorite_id : Nat := 1
deriving DecidableEq, Repr

/-- Result of one request handler: FastAPI either returns a value with the
route's success status, or an `HTTPException` with a status code and detail
message.  Both constructors carry the database state at return time, so a
handler that raises before mutating provably leaves the state intact. -/
inductive Res (α : Type) where
  | ok (db : DB) (status : Nat) (val : α)
  | err (db : DB) (status : Nat) (detail : String)
deriving DecidableEq, Repr

/-- Lookup `db.get(ProductORM, pid)`: primary-key lookup in the products table. -/
def findProduct (db : DB) (pid : Nat) : Option ProductORM :=
  db.products.find? (fun p => p.id == pid)

/-- The `cart.items` relationship: all line-items whose `cart_id` matches. -/
def cartItemsOf (db : DB) (cart_id : Nat) : List CartItemORM :=
  db.cart_items.filter (fun ci => ci.cart_id == cart_id)

/-- Round a rational to the nearest integer, ties to even: the rounding mode
of Python's built-in `round`. -/
def roundHalfEven (q : ℚ) : ℤ :=
  let f := ⌊q⌋
  let r := q - f
  if r < 1/2 then f
  else if 1/2 < r then f + 1
  else if f % 2 = 0 then f else f + 1

/-- Python `round(x, 2)` from the source's `calculate_cart_total`. -/
def round2 (q : ℚ) : ℚ := (roundHalfEven (q * 100) : ℚ) / 100

/-- Helper `calculate_cart_total`: fold over the cart's line-items, adding
`item.product.price * item.quantity` whenever the product reference
resolves and skipping the item otherwise, then round to 2 decimals. -/
def calculate_cart_total (db : DB) (cart_id : Nat) : ℚ :=
  round2 ((cartItemsOf db cart_id).foldl
    (fun acc item =>
      match findProduct db item.product_id with
      | some p => acc + p.price * (item.quantity : ℚ)
      | none => acc) 0)

/-- The `CartItem` pydantic model: request/response line-item shape. -/
structure CartItem where
  product_id : Nat
  quantity : Nat := 1
deriving DecidableEq, Repr

/-- The `CartSummary` pydantic model: cart id, its items, computed total. -/
structure CartSummary where
  id : Nat
  items : List CartItem
  total : ℚ := 0
deriving DecidableEq, Repr

/-- Build the `CartSummary` response exactly as the handlers do: convert
each ORM line-item and attach `calculate_cart_total`. -/
def cartSummaryOf (db : DB) (cart_id : Nat) : CartSummary :=
  { id := cart_id
    items := (cartItemsOf db cart_id).map
      (fun ci => { product_id := ci.product_id, quantity := ci.quantity })
    total := calculate_cart_total db cart_id }

/-- Lower-case a string into its character list, as SQL `ILIKE` compares
case-insensitively. -/
def lower (s : String) : List Char := s.data.map Char.toLower

/-- Does `f` accept some suffix of the string (the string itself included)?
Used to give `%` its "match any sequence" meaning. -/
def suffixAny (f : List Char → Bool) : List Char → Bool
  | [] => f []
  | c :: rest => f (c :: rest) || suffixAny f rest

/-- SQL LIKE matching over character lists: `%` matches any (possibly
empty) sequence, `_` matches exactly one character, anything else matches
itself. -/
def likeMatch : List Char → List Char → Bool
  | [], s => s.isEmpty
  | p :: ps, s =>
    if p = '%' then suffixAny (likeMatch ps) s
    else
      match s with
      | [] => false
      | c :: rest => (if p = '_' then true else p == c) && likeMatch ps rest

/-- Filter `column.ilike` of the wrapped query on a non-null column: case-insensitive LIKE
against the query wrapped in `%` wildcards. -/
def ilikeContains (q s : String) : Bool :=
  likeMatch ('%' :: (lower q ++ ['%'])) (lower s)

/-- Filter `column.ilike` on a nullable column: SQL yields NULL (falsy in the
filter) when the column is NULL. -/
def ilikeOpt (q : String) : Option String → Bool
  | none => false
  | some s => ilikeContains q s

/-- The `or_` filter of `list_products`: any of name, description, brand,
category matches the wrapped query. -/
def productMatches (q : String) (p : ProductORM) : Bool :=
  ilikeContains q p.name || ilikeOpt q p.description ||
    ilikeOpt q p.brand || ilikeOpt q p.category

/-- The query built by `list_products` before pagination: unfiltered when
`q` is absent or empty (`if q:` is false on both), filtered by the four-way
`or_` otherwise. -/
def filteredProducts (db : DB) (q : Option String) : List ProductORM :=
  match q with
  | none => db.products
  | some s => if s = "" then db.products else db.products.filter (productMatches s)

/-- The `ProductPage` response model. -/
structure ProductPage where
  page : Nat
  pages : Nat
  limit : Nat
  total : Nat
  products : List ProductORM
deriving DecidableEq, Repr

/-- Endpoint `GET /products`: filter, count, compute `pages` and `offset`, slice. -/
def list_products (db : DB) (q : Option String) (page limit : Nat) : ProductPage :=
  let filtered := filteredProducts db q
  let total := filtered.length
  let pages := if total ≠ 0 then (total + limit - 1) / limit else 0
  let offset := (page - 1) * limit
  { page := page
    pages := pages
    limit := limit
    total := total
    products := (filtered.drop offset).take limit }

/-- Endpoint `DELETE /products/{product_id}`: 404 when absent; otherwise delete the
row.  The ORM relationship `ProductORM.items` carries
`cascade="all, delete-orphan"`, so the session also deletes every cart
line-item referencing the product.  Nothing deletes the favorites row: the
`favorites.product_id` foreign key has no `ondelete` action and no ORM
cascade reaches it. -/
def delete_product (db : DB) (pid : Nat) : Res Unit :=
  match findProduct db pid with
  | none => .err db 404 "Product not found"
  | some _ =>
    .ok { db with
          products := db.products.eraseP (fun p => p.id == pid)
          cart_items := db.cart_items.filter (fun ci => ¬ ci.product_id == pid) }
      204 ()

/-- The `ProductUpdate` pydantic model under `model_dump(exclude_unset=True)`:
each of the three fields is either absent from the payload or supplied, and a
supplied value may itself be null — the pydantic types are all unions with
None, so an explicit null validates and survives `exclude_unset` for name,
description and price alike. -/
structure ProductUpdate where
  name : Option (Option String) := none
  description : Option (Option String) := none
  price : Option (Option ℚ) := none
deriving DecidableEq, Repr

/-- Endpoint `PUT /products/{product_id}`: 404 when absent; otherwise `setattr`
each field present in the payload on the fetched row and commit.  `name` and
`price` are NOT NULL columns (`Mapped[str]`, `Mapped[float]`), so a commit
that would store null in either raises IntegrityError, which no handler
catches: it surfaces as a 500 and nothing is persisted.  `description` is a
nullable column and may be cleared. -/
def update_product (db : DB) (pid : Nat) (payload : ProductUpdate) : Res ProductORM :=
  match findProduct db pid with
  | none => .err db 404 "Product not found"
  | some p =>
    match payload.name.getD (some p.name), payload.price.getD (some p.price) with
    | some nm, some pr =>
      let p' := { p with
                  name := nm
                  description := payload.description.getD p.description
                  price := pr }
      .ok { db with
            products := db.products.map (fun x => if x.id == pid then p' else x) }
        200 p'
    | _, _ => .err db 500 "Internal Server Error"

/-- Increment the quantity of the first line-item matching the
(cart, product) pair, leaving every other row untouched: the effect of
`existing.quantity += item.quantity` on the table. -/
def incFirst (l : List CartItemORM) (cart_id pid q : Nat) : List CartItemORM :=
  match l with
  | [] => []
  | ci :: rest =>
    if ci.cart_id == cart_id && ci.product_id == pid then
      { ci with quantity := ci.quantity + q } :: rest
    else
      ci :: incFirst rest cart_id pid q

/-- Endpoint `POST /carts/{cart_id}/items`: 404 for a missing cart, then 404 for a
missing product; otherwise increment the first existing line-item for the
product or insert a fresh row, and return the refreshed summary. -/
def add_cart_item (db : DB) (cart_id : Nat) (item : CartItem) : Res CartSummary :=
  if cart_id ∈ db.carts then
    match findProduct db item.product_id with
    | none => .err db 404 "Product not found"
    | some _ =>
      match (cartItemsOf db cart_id).find? (fun ci => ci.product_id == item.product_id) with
      | some _ =>
        let db' := { db with
                     cart_items := incFirst db.cart_items cart_id item.product_id item.quantity }
        .ok db' 200 (cartSummaryOf db' cart_id)
      | none =>
        let db' := { db with
                     cart_items := db.cart_items ++
                       [{ id := db.next_cart_item_id
                          cart_id := cart_id
                          product_id := item.product_id
                          quantity := item.quantity }]
                     next_cart_item_id := db.next_cart_item_id + 1 }
        .ok db' 200 (cartSummaryOf db' cart_id)
  else .err db 404 "Cart not found"

/-- Endpoint `DELETE /carts/{cart_id}/items/{product_id}`: 404 for a missing cart;
deleting nothing when no line-item matches; otherwise deleting the found
row (by primary key); in both non-error cases the refreshed summary is
returned. -/
def remove_cart_item (db : DB) (cart_id pid : Nat) : Res CartSummary :=
  if cart_id ∈ db.carts then
    match (cartItemsOf db cart_id).find? (fun ci => ci.product_id == pid) with
    | some ci =>
      let db' := { db with cart_items := db.cart_items.eraseP (fun x => x.id == ci.id) }
      .ok db' 200 (cartSummaryOf db' cart_id)
    | none => .ok db 200 (cartSummaryOf db cart_id)
  else .err db 404 "Cart not found"

/-- Endpoint `POST /favorites/{product_id}`: 404 for a missing product; return the
product unchanged when a favorite row already exists; otherwise insert one
row and return the product.  Success status is 201 on both paths. -/
def add_favorite (db : DB) (pid : Nat) : Res ProductORM :=
  match findProduct db pid with
  | none => .err db 404 "Product not found"
  | some p =>
    match db.favorites.find? (fun f => f.product_id == pid) with
    | some _ => .ok db 201 p
    | none =>
      .ok { db with
            favorites := db.favorites ++ [{ id := db.next_favorite_id, product_id := pid }]
            next_favorite_id := db.next_favorite_id + 1 }
        201 p

/-- Specified contribution of one line-item to a cart total: the product's
price times the quantity, or zero when the product reference is broken. -/
def itemContribution (db : DB) (it : CartItemORM) : ℚ :=
  match findProduct db it.product_id with
  | some p => p.price * (it.quantity : ℚ)
  | none => 0

lemma foldl_total_eq_sum (db : DB) (l : List CartItemORM) (acc : ℚ) :
    l.foldl
      (fun acc item =>
        match findProduct db item.product_id with
        | some p => acc + p.price * (item.quantity : ℚ)
        | none => acc) acc
      = acc + (l.map (itemContribution db)).sum := by
  induction l generalizing acc with
  | nil => simp
  | cons it rest ih =>
    simp only [List.foldl_cons, List.map_cons, List.sum_cons, itemContribution]
    cases h : findProduct db it.product_id with
    | none => simp [ih, h]
    | some p => simp [ih, h]; ring

lemma round2_zero : round2 0 = 0 := by
  have h : roundHalfEven 0 = 0 := by
    simp [roundHalfEven]
  simp [round2, h]

lemma nat_ceil_div_eq (a b : Nat) (hb : 0 < b) :
    ⌈(((a + 1 : Nat)) : ℚ) / (b : ℚ)⌉ = (((a + b) / b : Nat) : ℤ) := by
  have hb' : (0 : ℚ) < (b : ℚ) := by exact_mod_cast hb
  have hdm : b * ((a + b) / b) + (a + b) % b = a + b := Nat.div_add_mod _ _
  have hml : (a + b) % b < b := Nat.mod_lt _ hb
  set m := (a + b) / b with hmdef
  set r := (a + b) % b with hrdef
  have hdmq : (b : ℚ) * (m : ℚ) + (r : ℚ) = (a : ℚ) + b := by exact_mod_cast hdm
  have hr0 : (0 : ℚ) ≤ (r : ℚ) := by positivity
  have hnat : a + 1 ≤ b * m := by
    generalize b * m = x at hdm ⊢
    omega
  have hnatq : (a : ℚ) + 1 ≤ (b : ℚ) * (m : ℚ) := by exact_mod_cast hnat
  rw [Int.ceil_eq_iff]
  constructor
  · rw [sub_lt_iff_lt_add]
    push_cast
    rw [div_add' _ _ _ (ne_of_gt hb'), lt_div_iff₀ hb']
    linarith
  · push_cast
    rw [div_le_iff₀ hb']
    linarith

lemma list_products_total_eq (db : DB) (q : Option String) (page limit : Nat) :
    (list_products db q page limit).total = (filteredProducts db q).length := rfl

lemma list_products_products_eq (db : DB) (q : Option String) (page limit : Nat) :
    (list_products db q page limit).products =
      ((filteredProducts db q).drop ((page - 1) * limit)).take limit := rfl

lemma list_products_pages_spec (db : DB) (q : Option String) (page limit : Nat)
    (hlim : 1 ≤ limit) :
    (0 < (list_products db q page limit).total →
      (((list_products db q page limit).pages : ℤ)) =
        ⌈(((list_products db q page limit).total : ℚ)) / (limit : ℚ)⌉) ∧
    ((list_products db q page limit).total = 0 →
      (list_products db q page limit).pages = 0) := by
  constructor
  · intro h
    have h0 : (filteredProducts db q).length ≠ 0 := by
      simpa [list_products_total_eq] using Nat.pos_iff_ne_zero.mp h
    obtain ⟨a, ha⟩ : ∃ a, (filteredProducts db q).length = a + 1 :=
      ⟨(filteredProducts db q).length - 1, by omega⟩
    have hpages : (list_products db q page limit).pages = (a + limit) / limit := by
      simp only [list_products, ha]
      rw [if_pos (by omega)]
      congr 1
      omega
    rw [hpages, list_products_total_eq, ha]
    exact (nat_ceil_div_eq a limit (by omega)).symm
  · intro h
    have h0 : (filteredProducts db q).length = 0 := by
      simpa [list_products_total_eq] using h
    simp [list_products, h0]

/-- Claim C3: the computed cart total is the 2-decimal rounding of the sum
over the cart's line-items of price times quantity, an empty cart totals 0,
and a line-item with a broken product reference contributes zero instead of
failing. -/
theorem cart_total_correct (db : DB) (cart_id : Nat) :
    calculate_cart_total db cart_id =
      round2 (((cartItemsOf db cart_id).map (itemContribution db)).sum) ∧
    (cartItemsOf db cart_id = [] → calculate_cart_total db cart_id = 0) ∧
    (∀ it, findProduct db it.product_id = none → itemContribution db it = 0) := by
  refine ⟨?_, ?_, ?_⟩
  · unfold calculate_cart_total
    rw [foldl_total_eq_sum]
    ring_nf
  · intro h
    unfold calculate_cart_total
    rw [h]
    exact round2_zero
  · intro it h
    simp [itemContribution, h]

/-- Concrete database for the C3 witness: one empty cart, no products. -/
def emptyCartDB : DB :=
  { products := [], carts := [1], cart_items := [], favorites := [] }

/-- Witness for C3 at a concrete empty cart and a concrete dangling item. -/
theorem cart_total_correct_witness :
    cartItemsOf emptyCartDB 1 = [] ∧
    findProduct emptyCartDB 7 = none ∧
    calculate_cart_total emptyCartDB 1 = 0 ∧
    itemContribution emptyCartDB { id := 1, cart_id := 1, product_id := 7, quantity := 2 } = 0 :=
  ⟨rfl, rfl, (cart_total_correct emptyCartDB 1).2.1 rfl,
    (cart_total_correct emptyCartDB 1).2.2 _ rfl⟩

/-- Claim C4: for valid `page ≥ 1` and `limit ∈ [1,100]`, the returned page
has `pages = ceil(total/limit)` when `total > 0` and `pages = 0` when
`total = 0`, at most `limit` products, and its product list is the slice of
the filtered result set starting at offset `(page-1)*limit`. -/
theorem list_products_pagination_correct (db : DB) (q : Option String)
    (page limit : Nat) (hpage : 1 ≤ page) (hlim : 1 ≤ limit) (hlim' : limit ≤ 100) :
    (0 < (list_products db q page limit).total →
      (((list_products db q page limit).pages : ℤ)) =
        ⌈(((list_products db q page limit).total : ℚ)) / (limit : ℚ)⌉) ∧
    ((list_products db q page limit).total = 0 →
      (list_products db q page limit).pages = 0) ∧
    (list_products db q page limit).products.length ≤ limit ∧
    (list_products db q page limit).products =
      ((filteredProducts db q).drop ((page - 1) * limit)).take limit := by
  obtain ⟨h1, h2⟩ := list_products_pages_spec db q page limit hlim
  refine ⟨h1, h2, ?_, list_products_products_eq db q page limit⟩
  rw [list_products_products_eq]
  simpa using List.length_take_le limit _

/-- Concrete database for pagination witnesses: three products. -/
def threeProductsDB : DB :=
  { products :=
      [ { id := 1, name := "Widget", price := 10 }
      , { id := 2, name := "Gadget", price := 20 }
      , { id := 3, name := "Gizmo", price := 30 } ]
    carts := [], cart_items := [], favorites := [] }

/-- Witness for C4 at `page = 1`, `limit = 2` over three products. -/
theorem list_products_pagination_correct_witness :
    (1 ≤ 1 ∧ 1 ≤ 2 ∧ 2 ≤ 100) ∧
    ((0 < (list_products threeProductsDB none 1 2).total →
      (((list_products threeProductsDB none 1 2).pages : ℤ)) =
        ⌈(((list_products threeProductsDB none 1 2).total : ℚ)) / (2 : ℚ)⌉) ∧
    ((list_products threeProductsDB none 1 2).total = 0 →
      (list_products threeProductsDB none 1 2).pages = 0) ∧
    (list_products threeProductsDB none 1 2).products.length ≤ 2 ∧
    (list_products threeProductsDB none 1 2).products =
      ((filteredProducts threeProductsDB none).drop ((1 - 1) * 2)).take 2) :=
  ⟨⟨by decide, by decide, by decide⟩,
    list_products_pagination_correct threeProductsDB none 1 2
      (by decide) (by decide) (by decide)⟩

/-- Claim C10: when the offset `(page-1)*limit` reaches past the filtered
result set, listing succeeds with an empty product list while `total` and
`pages` still describe the whole filtered result set. -/
theorem list_products_page_overflow_empty (db : DB) (q : Option String)
    (page limit : Nat) (hpage : 1 ≤ page) (hlim : 1 ≤ limit) (hlim' : limit ≤ 100)
    (hoff : (filteredProducts db q).length ≤ (page - 1) * limit) :
    (list_products db q page limit).products = [] ∧
    (list_products db q page limit).total = (filteredProducts db q).length ∧
    (0 < (list_products db q page limit).total →
      (((list_products db q page limit).pages : ℤ)) =
        ⌈(((list_products db q page limit).total : ℚ)) / (limit : ℚ)⌉) ∧
    ((list_products db q page limit).total = 0 →
      (list_products db q page limit).pages = 0) := by
  obtain ⟨h1, h2⟩ := list_products_pages_spec db q page limit hlim
  refine ⟨?_, list_products_total_eq db q page limit, h1, h2⟩
  rw [list_products_products_eq]
  rw [List.drop_eq_nil_of_le hoff]
  simp

/-- Witness for C10 at `page = 3`, `limit = 2` over three products. -/
theorem list_products_page_overflow_empty_witness :
    (1 ≤ 3 ∧ 1 ≤ 2 ∧ 2 ≤ 100 ∧
      (filteredProducts threeProductsDB none).length ≤ (3 - 1) * 2) ∧
    ((list_products threeProductsDB none 3 2).products = [] ∧
    (list_products threeProductsDB none 3 2).total =
      (filteredProducts threeProductsDB none).length ∧
    (0 < (list_products threeProductsDB none 3 2).total →
      (((list_products threeProductsDB none 3 2).pages : ℤ)) =
        ⌈(((list_products threeProductsDB none 3 2).total : ℚ)) / (2 : ℚ)⌉) ∧
    ((list_products threeProductsDB none 3 2).total = 0 →
      (list_products threeProductsDB none 3 2).pages = 0)) :=
  ⟨⟨by decide, by decide, by decide, by decide⟩,
    list_products_page_overflow_empty threeProductsDB none 3 2
      (by decide) (by decide) (by decide) (by decide)⟩

/-- Claim C9: AddItem succeeds exactly when both cart and product exist;
a missing cart is reported first ("Cart not found", even when the product
is also missing), then a missing product ("Product not found"), and any
error leaves the database untouched. -/
theorem add_cart_item_notfound_spec (db : DB) (cart_id : Nat) (item : CartItem) :
    ((∃ db' s v, add_cart_item db cart_id item = .ok db' s v) ↔
      cart_id ∈ db.carts ∧ (findProduct db item.product_id).isSome) ∧
    (cart_id ∉ db.carts →
      add_cart_item db cart_id item = .err db 404 "Cart not found") ∧
    (cart_id ∈ db.carts → findProduct db item.product_id = none →
      add_cart_item db cart_id item = .err db 404 "Product not found") ∧
    (∀ db' s d, add_cart_item db cart_id item = .err db' s d → db' = db) := by
  by_cases hc : cart_id ∈ db.carts
  · cases hp : findProduct db item.product_id with
    | none => simp [add_cart_item, hc, hp]
    | some p =>
      cases hf : (cartItemsOf db cart_id).find?
          (fun ci => ci.product_id == item.product_id) with
      | none => simp [add_cart_item, hc, hp, hf]
      | some ci => simp [add_cart_item, hc, hp, hf]
  · simp [add_cart_item, hc]

/-- Witness for C9: a missing cart is reported first; a present cart with a
missing product reports the product; both errors carry the unchanged
database. -/
theorem add_cart_item_notfound_spec_witness :
    add_cart_item emptyCartDB 5 { product_id := 1 } =
      .err emptyCartDB 404 "Cart not found" ∧
    add_cart_item emptyCartDB 1 { product_id := 9 } =
      .err emptyCartDB 404 "Product not found" :=
  ⟨(add_cart_item_notfound_spec emptyCartDB 5 { product_id := 1 }).2.1 (by decide),
   (add_cart_item_notfound_spec emptyCartDB 1 { product_id := 9 }).2.2.1
     (by decide) rfl⟩

/-- The relational invariant of claim C1: no two line-item rows share the
same (cart, product) pair. -/
def pairInvariant (db : DB) : Prop :=
  db.cart_items.Pairwise
    (fun a b => ¬ (a.cart_id = b.cart_id ∧ a.product_id = b.product_id))

instance : DecidablePred pairInvariant := by
  intro db
  unfold pairInvariant
  infer_instance

lemma mem_incFirst {l : List CartItemORM} {cid pid q : Nat} {b : CartItemORM}
    (hb : b ∈ incFirst l cid pid q) :
    ∃ a ∈ l, b.cart_id = a.cart_id ∧ b.product_id = a.product_id := by
  induction l with
  | nil => simp [incFirst] at hb
  | cons ci rest ih =>
    simp only [incFirst] at hb
    by_cases h : (ci.cart_id == cid && ci.product_id == pid) = true
    · rw [if_pos h] at hb
      rcases List.mem_cons.mp hb with h1 | h1
      · exact ⟨ci, List.mem_cons_self _ _, by simp [h1]⟩
      · exact ⟨b, List.mem_cons_of_mem _ h1, rfl, rfl⟩
    · rw [if_neg h] at hb
      rcases List.mem_cons.mp hb with h1 | h1
      · exact ⟨ci, List.mem_cons_self _ _, by simp [h1]⟩
      · obtain ⟨a, ha, he⟩ := ih h1
        exact ⟨a, List.mem_cons_of_mem _ ha, he⟩

lemma incFirst_pairwise {l : List CartItemORM} {cid pid q : Nat}
    (h : l.Pairwise
      (fun a b => ¬ (a.cart_id = b.cart_id ∧ a.product_id = b.product_id))) :
    (incFirst l cid pid q).Pairwise
      (fun a b => ¬ (a.cart_id = b.cart_id ∧ a.product_id = b.product_id)) := by
  induction l with
  | nil => simpa [incFirst] using h
  | cons ci rest ih =>
    rcases List.pairwise_cons.mp h with ⟨hhead, htail⟩
    simp only [incFirst]
    by_cases hm : (ci.cart_id == cid && ci.product_id == pid) = true
    · rw [if_pos hm]
      exact List.pairwise_cons.mpr ⟨fun b hb => hhead b hb, htail⟩
    · rw [if_neg hm]
      refine List.pairwise_cons.mpr ⟨?_, ih htail⟩
      intro b hb
      obtain ⟨a, ha, he1, he2⟩ := mem_incFirst hb
      rw [he1, he2]
      exact hhead a ha

lemma incFirst_append_no_match {l m : List CartItemORM} {cid pid q : Nat}
    (h : ∀ a ∈ l, ¬ (a.cart_id = cid ∧ a.product_id = pid)) :
    incFirst (l ++ m) cid pid q = l ++ incFirst m cid pid q := by
  induction l with
  | nil => simp
  | cons ci rest ih =>
    have hci : ¬ (ci.cart_id == cid && ci.product_id == pid) = true := by
      have := h ci (List.mem_cons_self _ _)
      simp only [Bool.and_eq_true, beq_iff_eq]
      tauto
    simp only [List.cons_append, incFirst, if_neg hci, List.append_eq]
    rw [ih (fun a ha => h a (List.mem_cons_of_mem _ ha))]

/-- The database after `add_cart_item` inserts a fresh line-item row. -/
def dbInsertItem (db : DB) (cid pid q : Nat) : DB :=
  { db with
    cart_items := db.cart_items ++
      [{ id := db.next_cart_item_id, cart_id := cid, product_id := pid, quantity := q }]
    next_cart_item_id := db.next_cart_item_id + 1 }

/-- The database after `add_cart_item` increments an existing line-item. -/
def dbIncItem (db : DB) (cid pid q : Nat) : DB :=
  { db with cart_items := incFirst db.cart_items cid pid q }

lemma add_cart_item_insert_eq (db : DB) (cid pid q : Nat) (p : ProductORM)
    (hc : cid ∈ db.carts) (hp : findProduct db pid = some p)
    (hnone : (cartItemsOf db cid).find? (fun ci => ci.product_id == pid) = none) :
    add_cart_item db cid { product_id := pid, quantity := q } =
      .ok (dbInsertItem db cid pid q) 200
        (cartSummaryOf (dbInsertItem db cid pid q) cid) := by
  simp [add_cart_item, hc, hp, hnone, dbInsertItem]

lemma add_cart_item_increment_eq (db : DB) (cid pid q : Nat) (p : ProductORM)
    (ci : CartItemORM) (hc : cid ∈ db.carts) (hp : findProduct db pid = some p)
    (hsome : (cartItemsOf db cid).find? (fun x => x.product_id == pid) = some ci) :
    add_cart_item db cid { product_id := pid, quantity := q } =
      .ok (dbIncItem db cid pid q) 200 (cartSummaryOf (dbIncItem db cid pid q) cid) := by
  simp [add_cart_item, hc, hp, hsome, dbIncItem]

lemma no_pair_of_find?_none {db : DB} {cid pid : Nat}
    (hnone : (cartItemsOf db cid).find? (fun ci => ci.product_id == pid) = none) :
    ∀ a ∈ db.cart_items, ¬ (a.cart_id = cid ∧ a.product_id = pid) := by
  intro a ha
  rintro ⟨h1, h2⟩
  have hmem : a ∈ cartItemsOf db cid := by
    simp [cartItemsOf, List.mem_filter, ha, h1]
  have := List.find?_eq_none.mp hnone a hmem
  simp [h2] at this

/-- Claim C1: on an existing cart and product, adding quantity `q1` and then
`q2` for the same product leaves exactly one line-item for that product,
with quantity `q1 + q2`; and every successful AddItem preserves the
invariant that no two line-item rows share a (cart, product) pair. -/
theorem add_cart_item_accumulates (db : DB) (cart_id pid q1 q2 : Nat)
    (hc : cart_id ∈ db.carts) (hp : (findProduct db pid).isSome)
    (hnone : (cartItemsOf db cart_id).find? (fun ci => ci.product_id == pid) = none) :
    (∃ db1 v1 db2 v2,
      add_cart_item db cart_id { product_id := pid, quantity := q1 } = .ok db1 200 v1 ∧
      add_cart_item db1 cart_id { product_id := pid, quantity := q2 } = .ok db2 200 v2 ∧
      ∃ row, (cartItemsOf db2 cart_id).filter (fun ci => ci.product_id == pid) = [row] ∧
        row.quantity = q1 + q2) ∧
    (∀ (db0 : DB) (cid : Nat) (it : CartItem) (db' : DB) (s : Nat) (v : CartSummary),
      pairInvariant db0 → add_cart_item db0 cid it = .ok db' s v → pairInvariant db') := by
  constructor
  · obtain ⟨p, hp'⟩ := Option.isSome_iff_exists.mp hp
    have e1 := add_cart_item_insert_eq db cart_id pid q1 p hc hp' hnone
    set new1 : CartItemORM :=
      { id := db.next_cart_item_id, cart_id := cart_id, product_id := pid
        quantity := q1 } with hnew1
    set db1 := dbInsertItem db cart_id pid q1 with hdb1
    have hitems1 : cartItemsOf db1 cart_id = cartItemsOf db cart_id ++ [new1] := by
      simp [cartItemsOf, hdb1, dbInsertItem, List.filter_append, hnew1]
    have hc1 : cart_id ∈ db1.carts := hc
    have hp1 : findProduct db1 pid = some p := hp'
    have hfind1 : (cartItemsOf db1 cart_id).find? (fun x => x.product_id == pid)
        = some new1 := by
      rw [hitems1, List.find?_append, hnone]
      simp [hnew1]
    have e2 := add_cart_item_increment_eq db1 cart_id pid q2 p new1 hc1 hp1 hfind1
    refine ⟨db1, _, dbIncItem db1 cart_id pid q2, _, e1, e2, ?_⟩
    have hnom := no_pair_of_find?_none hnone
    have hinc : (dbIncItem db1 cart_id pid q2).cart_items =
        db.cart_items ++ [{ new1 with quantity := q1 + q2 }] := by
      show incFirst db1.cart_items cart_id pid q2 = _
      have : db1.cart_items = db.cart_items ++ [new1] := rfl
      rw [this, incFirst_append_no_match hnom]
      simp [incFirst, hnew1]
    refine ⟨{ new1 with quantity := q1 + q2 }, ?_, rfl⟩
    have hfil : (cartItemsOf db cart_id).filter (fun ci => ci.product_id == pid) = [] := by
      refine List.filter_eq_nil_iff.mpr ?_
      intro a ha
      have hmemall : a ∈ db.cart_items := List.mem_of_mem_filter ha
      have hcid : a.cart_id = cart_id := by
        have := (List.mem_filter.mp ha).2
        simpa using this
      have := hnom a hmemall
      simp only [Bool.not_eq_true, beq_eq_false_iff_ne, ne_eq]
      tauto
    show ((dbIncItem db1 cart_id pid q2).cart_items.filter
        (fun ci => ci.cart_id == cart_id)).filter (fun ci => ci.product_id == pid) = _
    rw [hinc]
    simp only [List.filter_append]
    rw [show (db.cart_items.filter (fun ci => ci.cart_id == cart_id)) =
      cartItemsOf db cart_id from rfl, hfil]
    simp [hnew1]
  · intro db0 cid it db' s v hinv heq
    by_cases hc0 : cid ∈ db0.carts
    · cases hp0 : findProduct db0 it.product_id with
      | none => simp [add_cart_item, hc0, hp0] at heq
      | some p0 =>
        cases hf0 : (cartItemsOf db0 cid).find?
            (fun ci => ci.product_id == it.product_id) with
        | some ci0 =>
          have := add_cart_item_increment_eq db0 cid it.product_id it.quantity p0 ci0 hc0 hp0 hf0
          rw [show ({ product_id := it.product_id, quantity := it.quantity } : CartItem)
            = it from rfl] at this
          rw [this] at heq
          obtain ⟨hdb, -, -⟩ := Res.ok.inj heq
          rw [← hdb]
          exact incFirst_pairwise hinv
        | none =>
          have := add_cart_item_insert_eq db0 cid it.product_id it.quantity p0 hc0 hp0 hf0
          rw [show ({ product_id := it.product_id, quantity := it.quantity } : CartItem)
            = it from rfl] at this
          rw [this] at heq
          obtain ⟨hdb, -, -⟩ := Res.ok.inj heq
          rw [← hdb]
          show (db0.cart_items ++ [_]).Pairwise _
          rw [List.pairwise_append]
          refine ⟨hinv, List.pairwise_singleton _ _, ?_⟩
          intro a ha b hb
          rw [List.mem_singleton] at hb
          subst hb
          have := no_pair_of_find?_none hf0 a ha
          simpa using this
    · simp [add_cart_item, hc0] at heq

/-- Concrete database with one cart and one product for cart witnesses. -/
def cartAndProductDB : DB :=
  { products := [{ id := 1, name := "Widget", price := 10 }]
    carts := [1], cart_items := [], favorites := [] }

/-- Witness for C1: adding quantity 3 then 2 of product 1 to cart 1. -/
theorem add_cart_item_accumulates_witness :
    (1 ∈ cartAndProductDB.carts ∧ (findProduct cartAndProductDB 1).isSome ∧
      (cartItemsOf cartAndProductDB 1).find? (fun ci => ci.product_id == 1) = none) ∧
    ((∃ db1 v1 db2 v2,
      add_cart_item cartAndProductDB 1 { product_id := 1, quantity := 3 } =
        .ok db1 200 v1 ∧
      add_cart_item db1 1 { product_id := 1, quantity := 2 } = .ok db2 200 v2 ∧
      ∃ row, (cartItemsOf db2 1).filter (fun ci => ci.product_id == 1) = [row] ∧
        row.quantity = 3 + 2) ∧
    (∀ (db0 : DB) (cid : Nat) (it : CartItem) (db' : DB) (s : Nat) (v : CartSummary),
      pairInvariant db0 → add_cart_item db0 cid it = .ok db' s v → pairInvariant db')) :=
  ⟨⟨by decide, by decide, rfl⟩,
    add_cart_item_accumulates cartAndProductDB 1 1 3 2 (by decide) (by decide) rfl⟩

lemma eraseP_id_mem_iff {l : List CartItemORM} {i : Nat}
    (hnd : (l.map (fun x => x.id)).Nodup) (hex : ∃ x ∈ l, x.id = i) :
    ∀ y, y ∈ l.eraseP (fun x => x.id == i) ↔ (y ∈ l ∧ y.id ≠ i) := by
  induction l with
  | nil => simp at hex
  | cons a rest ih =>
    rw [List.map_cons, List.nodup_cons] at hnd
    obtain ⟨hna, hndr⟩ := hnd
    intro y
    by_cases ha : a.id = i
    · rw [List.eraseP_cons_of_pos (by simp [ha])]
      constructor
      · intro hy
        refine ⟨List.mem_cons_of_mem _ hy, ?_⟩
        intro hyi
        have hmap : y.id ∈ rest.map (fun x => x.id) :=
          List.mem_map_of_mem (fun x => x.id) hy
        rw [hyi, ← ha] at hmap
        exact hna hmap
      · rintro ⟨hy, hyne⟩
        rcases List.mem_cons.mp hy with rfl | hy
        · exact absurd ha hyne
        · exact hy
    · rw [List.eraseP_cons_of_neg (by simp [ha])]
      have hex' : ∃ x ∈ rest, x.id = i := by
        obtain ⟨x, hx, hxi⟩ := hex
        rcases List.mem_cons.mp hx with rfl | hx
        · exact absurd hxi ha
        · exact ⟨x, hx, hxi⟩
      rw [List.mem_cons, ih hndr hex' y]
      constructor
      · rintro (rfl | ⟨hy, hyne⟩)
        · exact ⟨List.mem_cons_self _ _, ha⟩
        · exact ⟨List.mem_cons_of_mem _ hy, hyne⟩
      · rintro ⟨hy, hyne⟩
        rcases List.mem_cons.mp hy with rfl | hy
        · exact Or.inl rfl
        · exact Or.inr ⟨hy, hyne⟩

/-- Claim C8: RemoveItem signals NotFound exactly when the cart is missing;
with the cart present and no matching line-item it is a silent no-op that
still returns the refreshed summary on the unchanged state; with a matching
line-item, exactly that row is deleted and the summary reflects it. -/
theorem remove_cart_item_spec (db : DB) (cart_id pid : Nat) :
    ((∃ db' s d, remove_cart_item db cart_id pid = .err db' s d) ↔
      cart_id ∉ db.carts) ∧
    (cart_id ∉ db.carts →
      remove_cart_item db cart_id pid = .err db 404 "Cart not found") ∧
    (cart_id ∈ db.carts →
      (cartItemsOf db cart_id).find? (fun ci => ci.product_id == pid) = none →
      remove_cart_item db cart_id pid = .ok db 200 (cartSummaryOf db cart_id)) ∧
    (∀ ci, cart_id ∈ db.carts →
      (cartItemsOf db cart_id).find? (fun x => x.product_id == pid) = some ci →
      (db.cart_items.map (fun x => x.id)).Nodup →
      ∃ db', remove_cart_item db cart_id pid = .ok db' 200 (cartSummaryOf db' cart_id) ∧
        ci ∈ db.cart_items ∧ ci.cart_id = cart_id ∧ ci.product_id = pid ∧
        db'.cart_items.length + 1 = db.cart_items.length ∧
        (∀ y, y ∈ db'.cart_items ↔ (y ∈ db.cart_items ∧ y.id ≠ ci.id))) := by
  refine ⟨?_, ?_, ?_, ?_⟩
  · by_cases hc : cart_id ∈ db.carts
    · cases hf : (cartItemsOf db cart_id).find? (fun ci => ci.product_id == pid) <;>
        simp [remove_cart_item, hc, hf]
    · simp [remove_cart_item, hc]
  · intro hc
    simp [remove_cart_item, hc]
  · intro hc hf
    simp [remove_cart_item, hc, hf]
  · intro ci hc hf hnd
    have hmemf : ci ∈ cartItemsOf db cart_id := List.mem_of_find?_eq_some hf
    have hmem : ci ∈ db.cart_items := List.mem_of_mem_filter hmemf
    have hcid : ci.cart_id = cart_id := by
      simpa using (List.mem_filter.mp hmemf).2
    have hpid : ci.product_id = pid := by
      simpa using List.find?_some hf
    refine ⟨{ db with cart_items := db.cart_items.eraseP (fun x => x.id == ci.id) },
      ?_, hmem, hcid, hpid, ?_, ?_⟩
    · simp [remove_cart_item, hc, hf]
    · have hlen : (db.cart_items.eraseP (fun x => x.id == ci.id)).length =
          db.cart_items.length - 1 :=
        List.length_eraseP_of_mem hmem (by simp)
      have hpos : 0 < db.cart_items.length := List.length_pos.mpr
        (List.ne_nil_of_mem hmem)
      simp only at hlen ⊢
      omega
    · exact eraseP_id_mem_iff hnd ⟨ci, hmem, rfl⟩

/-- Concrete database with one cart holding one line-item. -/
def cartWithItemDB : DB :=
  { products := [{ id := 1, name := "Widget", price := 10 }]
    carts := [1]
    cart_items := [{ id := 1, cart_id := 1, product_id := 1, quantity := 2 }]
    favorites := [], next_cart_item_id := 2 }

/-- Witness for C8: missing cart errors; missing line-item is a no-op with
a summary; a present line-item is deleted. -/
theorem remove_cart_item_spec_witness :
    remove_cart_item cartWithItemDB 5 1 = .err cartWithItemDB 404 "Cart not found" ∧
    remove_cart_item cartWithItemDB 1 9 =
      .ok cartWithItemDB 200 (cartSummaryOf cartWithItemDB 1) ∧
    (∃ db', remove_cart_item cartWithItemDB 1 1 =
        .ok db' 200 (cartSummaryOf db' 1) ∧
      ({ id := 1, cart_id := 1, product_id := 1, quantity := 2 } : CartItemORM)
          ∈ cartWithItemDB.cart_items ∧
      (1 : Nat) = 1 ∧ (1 : Nat) = 1 ∧
      db'.cart_items.length + 1 = cartWithItemDB.cart_items.length ∧
      (∀ y, y ∈ db'.cart_items ↔ (y ∈ cartWithItemDB.cart_items ∧ y.id ≠ 1))) :=
  ⟨(remove_cart_item_spec cartWithItemDB 5 1).2.1 (by decide),
   (remove_cart_item_spec cartWithItemDB 1 9).2.2.1 (by decide) rfl,
   (remove_cart_item_spec cartWithItemDB 1 1).2.2.2
     { id := 1, cart_id := 1, product_id := 1, quantity := 2 }
     (by decide) rfl (by decide)⟩

/-- Claim C6: adding a favorite for a missing product is a 404 that changes
nothing; for an existing, not-yet-favorited product the first Add creates
exactly one favorite row and returns the product with status 201, and a
second Add succeeds identically without creating another row. -/
theorem add_favorite_idempotent (db : DB) (pid : Nat) :
    (findProduct db pid = none →
      add_favorite db pid = .err db 404 "Product not found") ∧
    (∀ p, findProduct db pid = some p →
      db.favorites.filter (fun f => f.product_id == pid) = [] →
      ∃ db1, add_favorite db pid = .ok db1 201 p ∧
        (db1.favorites.filter (fun f => f.product_id == pid)).length = 1 ∧
        add_favorite db1 pid = .ok db1 201 p ∧
        db1.products = db.products) := by
  constructor
  · intro h
    simp [add_favorite, h]
  · intro p hp hfil
    have hnone : db.favorites.find? (fun f => f.product_id == pid) = none := by
      refine List.find?_eq_none.mpr ?_
      intro f hf
      exact List.filter_eq_nil_iff.mp hfil f hf
    refine ⟨{ db with
        favorites := db.favorites ++ [{ id := db.next_favorite_id, product_id := pid }]
        next_favorite_id := db.next_favorite_id + 1 }, ?_, ?_, ?_, rfl⟩
    · simp [add_favorite, hp, hnone]
    · simp only [List.filter_append, hfil]
      simp
    · have hp1 : findProduct { db with
          favorites := db.favorites ++ [{ id := db.next_favorite_id, product_id := pid }]
          next_favorite_id := db.next_favorite_id + 1 } pid = some p := hp
      have hfind1 : List.find? (fun f => f.product_id == pid)
          (db.favorites ++ [({ id := db.next_favorite_id, product_id := pid } : FavoriteORM)])
          = some ({ id := db.next_favorite_id, product_id := pid } : FavoriteORM) := by
        rw [List.find?_append, hnone]
        simp
      simp [add_favorite, hp1, hfind1]

/-- Witness for C6 on the concrete one-product database. -/
theorem add_favorite_idempotent_witness :
    (∃ db1, add_favorite cartAndProductDB 1 =
        .ok db1 201 { id := 1, name := "Widget", price := 10 } ∧
      (db1.favorites.filter (fun f => f.product_id == 1)).length = 1 ∧
      add_favorite db1 1 = .ok db1 201 { id := 1, name := "Widget", price := 10 } ∧
      db1.products = cartAndProductDB.products) ∧
    add_favorite cartAndProductDB 9 = .err cartAndProductDB 404 "Product not found" :=
  ⟨(add_favorite_idempotent cartAndProductDB 1).2
      { id := 1, name := "Widget", price := 10 } rfl rfl,
   (add_favorite_idempotent cartAndProductDB 9).1 rfl⟩

/-- Validation of the `name` field in `ProductBase` (Create): length 1-120. -/
def nameConstraint (s : String) : Prop := 1 ≤ s.length ∧ s.length ≤ 120

/-- Validation of the `description` field in `ProductBase` (Create):
optional, at most 500 characters when present. -/
def descriptionConstraint : Option String → Prop
  | none => True
  | some d => d.length ≤ 500

/-- Validation of the `price` field in `ProductBase` (Create): positive. -/
def priceConstraint (q : ℚ) : Prop := 0 < q

/-- Validation of a `ProductUpdate` payload, from the `Field` constraints on
`ProductUpdate`: each constraint applies only to the non-null branch of the
union type, so an explicit null passes validation for every field. -/
def updateValidation (u : ProductUpdate) : Prop :=
  (∀ v, u.name = some v → ∀ s, v = some s → 1 ≤ s.length ∧ s.length ≤ 120) ∧
  (∀ v, u.description = some v → ∀ t, v = some t → t.length ≤ 500) ∧
  (∀ v, u.price = some v → ∀ q, v = some q → 0 < q)

/-- Counterexample to C5 as stated: the payload supplying `name` as an
explicit null passes Update validation (where Create requires a string
name), yet on the existing product 1 the handler neither performs a partial
update nor signals NotFound — the commit would write null into the NOT NULL
name column, so it fails and surfaces as a 500 with the database unchanged. -/
theorem update_product_null_counterexample :
    findProduct cartAndProductDB 1 =
      some { id := 1, name := "Widget", price := 10 } ∧
    updateValidation { name := some none } ∧
    update_product cartAndProductDB 1 { name := some none } =
      .err cartAndProductDB 500 "Internal Server Error" := by
  refine ⟨rfl, ?_, rfl⟩
  unfold updateValidation
  refine ⟨?_, ?_, ?_⟩
  · rintro v hv s hs
    injection hv with h
    subst h
    cases hs
  · rintro v hv
    cases hv
  · rintro v hv
    cases hv

/-- Claim C5 (amended): Update on a missing id is a 404 leaving the stored
products unchanged; on an existing product, a payload not supplying an
explicit null for the NOT NULL columns name or price changes exactly the
supplied fields and preserves every other field, row and table; a payload
supplying null for name or price instead fails at commit with a 500 and
changes nothing; and the constraints applied to supplied non-null values
are exactly those of Create. -/
theorem update_product_partial_spec (db : DB) (pid : Nat) (payload : ProductUpdate) :
    (findProduct db pid = none →
      update_product db pid payload = .err db 404 "Product not found") ∧
    (∀ p, findProduct db pid = some p →
      payload.name ≠ some none → payload.price ≠ some none →
      ∃ db' p', update_product db pid payload = .ok db' 200 p' ∧
        (∀ s, payload.name = some (some s) → p'.name = s) ∧
        (payload.name = none → p'.name = p.name) ∧
        (∀ d, payload.description = some d → p'.description = d) ∧
        (payload.description = none → p'.description = p.description) ∧
        (∀ q, payload.price = some (some q) → p'.price = q) ∧
        (payload.price = none → p'.price = p.price) ∧
        p'.id = p.id ∧ p'.discount_percentage = p.discount_percentage ∧
        p'.rating = p.rating ∧ p'.stock = p.stock ∧ p'.brand = p.brand ∧
        p'.category = p.category ∧ p'.thumbnail = p.thumbnail ∧
        p'.images = p.images ∧
        (∀ x ∈ db.products, x.id ≠ pid → x ∈ db'.products) ∧
        db'.carts = db.carts ∧ db'.cart_items = db.cart_items ∧
        db'.favorites = db.favorites) ∧
    (∀ p, findProduct db pid = some p →
      (payload.name = some none ∨ payload.price = some none) →
      update_product db pid payload = .err db 500 "Internal Server Error") ∧
    (updateValidation payload ↔
      ((∀ s, payload.name = some (some s) → nameConstraint s) ∧
       (∀ t, payload.description = some t → descriptionConstraint t) ∧
       (∀ q, payload.price = some (some q) → priceConstraint q))) := by
  refine ⟨?_, ?_, ?_, ?_⟩
  · intro h
    simp [update_product, h]
  · intro p hp hn hq
    have hname : ∃ nm, payload.name.getD (some p.name) = some nm ∧
        (∀ s, payload.name = some (some s) → nm = s) ∧
        (payload.name = none → nm = p.name) := by
      cases hv : payload.name with
      | none =>
        refine ⟨p.name, rfl, ?_, fun h => rfl⟩
        intro s hs
        exact nomatch hs
      | some v =>
        cases v with
        | none => exact absurd hv hn
        | some s =>
          refine ⟨s, rfl, ?_, ?_⟩
          · intro s' hs'
            simp only [Option.some.injEq] at hs'
            exact hs' 
          · intro h
            exact nomatch h
    have hprice : ∃ pr, payload.price.getD (some p.price) = some pr ∧
        (∀ q, payload.price = some (some q) → pr = q) ∧
        (payload.price = none → pr = p.price) := by
      cases hv : payload.price with
      | none =>
        refine ⟨p.price, rfl, ?_, fun h => rfl⟩
        intro q hq0
        exact nomatch hq0
      | some v =>
        cases v with
        | none => exact absurd hv hq
        | some q0 =>
          refine ⟨q0, rfl, ?_, ?_⟩
          · intro q1 hq1
            simp only [Option.some.injEq] at hq1
            exact hq1
          · intro h
            exact nomatch h
    obtain ⟨nm, e1, hn1, hn2⟩ := hname
    obtain ⟨pr, e2, hq1, hq2⟩ := hprice
    refine ⟨{ db with products := db.products.map (fun x =>
        if x.id == pid then
          { p with
              name := nm
              description := payload.description.getD p.description
              price := pr }
        else x) },
      { p with
          name := nm
          description := payload.description.getD p.description
          price := pr },
      ?_, ?_, ?_, ?_, ?_, ?_, ?_, rfl, rfl, rfl, rfl, rfl, rfl, rfl, rfl,
      ?_, rfl, rfl, rfl⟩
    · simp only [update_product, hp, e1, e2]
    · intro s hs
      exact hn1 s hs
    · intro h
      exact hn2 h
    · intro d hd
      show payload.description.getD p.description = d
      rw [hd]
      rfl
    · intro h
      show payload.description.getD p.description = p.description
      rw [h]
      rfl
    · intro q0 hq0
      exact hq1 q0 hq0
    · intro h
      exact hq2 h
    · intro x hx hxid
      show x ∈ db.products.map (fun y => if y.id == pid then _ else y)
      have hfix : (fun y =>
          if y.id == pid then
            { p with
                name := nm
                description := payload.description.getD p.description
                price := pr }
          else y) x = x := by
        simp [hxid]
      exact hfix ▸ List.mem_map_of_mem _ hx
  · intro p hp hor
    cases hv : payload.name with
    | some v =>
      cases v with
      | none => simp [update_product, hp, hv]
      | some s =>
        rcases hor with h | h
        · rw [hv] at h
          injection h with h1
          cases h1
        · simp [update_product, hp, hv, h]
    | none =>
      rcases hor with h | h
      · rw [hv] at h
        cases h
      · simp [update_product, hp, hv, h]
  · unfold updateValidation nameConstraint descriptionConstraint priceConstraint
    constructor
    · rintro ⟨h1, h2, h3⟩
      refine ⟨fun s hs => h1 (some s) hs s rfl, ?_, fun q hq0 => h3 (some q) hq0 q rfl⟩
      intro t ht
      cases t with
      | none => trivial
      | some d => exact h2 _ ht d rfl
    · rintro ⟨h1, h2, h3⟩
      refine ⟨?_, ?_, ?_⟩
      · rintro v hv s rfl
        exact h1 s hv
      · rintro v hv t rfl
        exact h2 (some t) hv
      · rintro v hv q rfl
        exact h3 q hv

/-- Witness for the amended C5: updating a missing id errors with the state
unchanged; updating the price of product 1 changes the price and keeps the
name; supplying price as null on product 1 fails with a 500. -/
theorem update_product_partial_spec_witness :
    update_product cartAndProductDB 9 {} =
      .err cartAndProductDB 404 "Product not found" ∧
    (∃ db' p', update_product cartAndProductDB 1 { price := some (some 25) } =
        .ok db' 200 p' ∧ p'.price = 25 ∧ p'.name = "Widget") ∧
    update_product cartAndProductDB 1 { price := some none } =
      .err cartAndProductDB 500 "Internal Server Error" := by
  refine ⟨?_, ?_, ?_⟩
  · exact (update_product_partial_spec cartAndProductDB 9 {}).1 rfl
  · obtain ⟨db', p', heq, hn1, hn2, hd1, hd2, hq1, hq2, -⟩ :=
      (update_product_partial_spec cartAndProductDB 1
          { price := some (some 25) }).2.1
        { id := 1, name := "Widget", price := 10 } rfl (by decide) (by decide)
    exact ⟨db', p', heq, hq1 25 rfl, hn2 rfl⟩
  · exact (update_product_partial_spec cartAndProductDB 1 { price := some none }).2.2.1
      { id := 1, name := "Widget", price := 10 } rfl (Or.inr rfl)

/-- Concrete database where product 1 is in a cart and favorited. -/
def favoriteDB : DB :=
  { products := [{ id := 1, name := "Widget", price := 10 }]
    carts := [1]
    cart_items := [{ id := 1, cart_id := 1, product_id := 1, quantity := 2 }]
    favorites := [{ id := 1, product_id := 1 }]
    next_cart_item_id := 2, next_favorite_id := 2 }

/-- Claim C2 (code bug): deleting product 1 removes the product row and
every cart line-item referencing it, but the favorite row referencing the
deleted product survives untouched — the `favorites.product_id` foreign key
has no `ondelete="CASCADE"` and no ORM cascade covers it, so referential
integrity does not delete it (with foreign keys enforced the DELETE would
instead be rejected; either way the favorite row is not cascade-deleted). -/
theorem delete_product_favorite_not_cascaded :
    ∃ db', delete_product favoriteDB 1 = .ok db' 204 () ∧
      findProduct db' 1 = none ∧
      db'.cart_items.filter (fun ci => ci.product_id == 1) = [] ∧
      db'.favorites = [{ id := 1, product_id := 1 }] :=
  ⟨_, rfl, rfl, rfl, rfl⟩

lemma suffixAny_iff (f : List Char → Bool) (s : List Char) :
    suffixAny f s = true ↔ ∃ a b, s = a ++ b ∧ f b = true := by
  induction s with
  | nil =>
    constructor
    · intro h
      exact ⟨[], [], rfl, h⟩
    · rintro ⟨a, b, heq, hb⟩
      obtain ⟨rfl, rfl⟩ := List.append_eq_nil.mp heq.symm
      exact hb
  | cons c rest ih =>
    simp only [suffixAny, Bool.or_eq_true, ih]
    constructor
    · rintro (h | ⟨a, b, rfl, hb⟩)
      · exact ⟨[], c :: rest, rfl, h⟩
      · exact ⟨c :: a, b, rfl, hb⟩
    · rintro ⟨a, b, heq, hb⟩
      cases a with
      | nil =>
        simp only [List.nil_append] at heq
        exact Or.inl (heq ▸ hb)
      | cons a1 as =>
        rw [List.cons_append] at heq
        injection heq with h1 h2
        exact Or.inr ⟨as, b, h2, hb⟩

lemma likeMatch_percent_end (s : List Char) : likeMatch ['%'] s = true := by
  have h : likeMatch ['%'] s = suffixAny (likeMatch []) s := by
    simp [likeMatch]
  rw [h, suffixAny_iff]
  exact ⟨s, [], by simp, rfl⟩

lemma likeMatch_literal {L : List Char} (hL : ∀ c ∈ L, c ≠ '%' ∧ c ≠ '_')
    (ps : List Char) :
    ∀ s, likeMatch (L ++ ps) s = true ↔ ∃ t, s = L ++ t ∧ likeMatch ps t = true := by
  induction L with
  | nil =>
    intro s
    simp
  | cons c L ih =>
    intro s
    obtain ⟨hc1, hc2⟩ := hL c (List.mem_cons_self _ _)
    have hL' : ∀ d ∈ L, d ≠ '%' ∧ d ≠ '_' :=
      fun d hd => hL d (List.mem_cons_of_mem _ hd)
    cases s with
    | nil =>
      simp only [List.cons_append, likeMatch, if_neg hc1]
      simp
    | cons d rest =>
      simp only [List.cons_append, likeMatch, if_neg hc1, if_neg hc2, List.append_eq,
        Bool.and_eq_true, beq_iff_eq, ih hL' rest]
      constructor
      · rintro ⟨rfl, t, rfl, ht⟩
        exact ⟨t, rfl, ht⟩
      · rintro ⟨t, heq, ht⟩
        injection heq with h1 h2
        exact ⟨h1.symm, t, h2, ht⟩

lemma likeMatch_wrapped_iff {L : List Char} (hL : ∀ c ∈ L, c ≠ '%' ∧ c ≠ '_')
    (s : List Char) :
    likeMatch ('%' :: (L ++ ['%'])) s = true ↔ L <:+: s := by
  have h : likeMatch ('%' :: (L ++ ['%'])) s = suffixAny (likeMatch (L ++ ['%'])) s := by
    simp [likeMatch]
  rw [h, suffixAny_iff]
  constructor
  · rintro ⟨a, b, rfl, hb⟩
    obtain ⟨t, rfl, -⟩ := (likeMatch_literal hL ['%'] b).mp hb
    exact ⟨a, t, by simp⟩
  · rintro ⟨a, t, rfl⟩
    refine ⟨a, L ++ t, by simp, ?_⟩
    exact (likeMatch_literal hL ['%'] (L ++ t)).mpr ⟨t, rfl, likeMatch_percent_end t⟩

lemma ilikeContains_iff_substring {q s : String}
    (h1 : '%' ∉ lower q) (h2 : '_' ∉ lower q) :
    ilikeContains q s = true ↔ lower q <:+: lower s := by
  unfold ilikeContains
  exact likeMatch_wrapped_iff
    (fun c hc => ⟨fun he => h1 (he ▸ hc), fun he => h2 (he ▸ hc)⟩) _

/-- Stated from the spec's words for comparison with the code's `ilike`
filter: the query is, case-insensitively, a contiguous substring of the
field. -/
def specContainsSubstring (q s : String) : Prop := lower q <:+: lower s

/-- Spec-side substring match on an optional field: a missing field
contains nothing. -/
def specFieldContains (q : String) : Option String → Prop
  | none => False
  | some s => specContainsSubstring q s

/-- Spec-side search predicate: the query is a case-insensitive substring
of name, description, brand or category. -/
def specProductMatches (q : String) (p : ProductORM) : Prop :=
  specContainsSubstring q p.name ∨ specFieldContains q p.description ∨
    specFieldContains q p.brand ∨ specFieldContains q p.category

instance (q s : String) : Decidable (specContainsSubstring q s) := by
  unfold specContainsSubstring
  infer_instance

instance (q : String) (o : Option String) : Decidable (specFieldContains q o) := by
  cases o <;> unfold specFieldContains <;> infer_instance

instance (q : String) (p : ProductORM) : Decidable (specProductMatches q p) := by
  unfold specProductMatches
  infer_instance

lemma ilikeOpt_iff_spec {q : String} (h1 : '%' ∉ lower q) (h2 : '_' ∉ lower q)
    (o : Option String) : ilikeOpt q o = true ↔ specFieldContains q o := by
  cases o with
  | none => simp [ilikeOpt, specFieldContains]
  | some s =>
    simpa [ilikeOpt, specFieldContains, specContainsSubstring] using
      ilikeContains_iff_substring h1 h2

lemma productMatches_iff_spec {q : String} (h1 : '%' ∉ lower q)
    (h2 : '_' ∉ lower q) (p : ProductORM) :
    productMatches q p = true ↔ specProductMatches q p := by
  unfold productMatches specProductMatches
  simp only [Bool.or_eq_true, ilikeContains_iff_substring h1 h2,
    ilikeOpt_iff_spec h1 h2, specContainsSubstring]
  tauto

/-- Claim C7 (amended): for a non-empty query containing no SQL LIKE
wildcard (`%` or `_`), the filtered result set holds exactly the products
with a case-insensitive substring match on name, description, brand or
category; a product on the list as often as in the table (exactly once for
a distinct row); and without a query all products are returned. -/
theorem list_products_search_matches (db : DB) (q : String)
    (hq : q ≠ "") (h1 : '%' ∉ lower q) (h2 : '_' ∉ lower q) :
    (∀ p, p ∈ filteredProducts db (some q) ↔
      (p ∈ db.products ∧ specProductMatches q p)) ∧
    (∀ p, specProductMatches q p →
      (filteredProducts db (some q)).count p = db.products.count p) ∧
    filteredProducts db none = db.products := by
  have hfp : filteredProducts db (some q) = db.products.filter (productMatches q) := by
    simp [filteredProducts, hq]
  refine ⟨?_, ?_, rfl⟩
  · intro p
    rw [hfp, List.mem_filter, productMatches_iff_spec h1 h2]
  · intro p hp
    rw [hfp]
    exact List.count_filter ((productMatches_iff_spec h1 h2 p).mpr hp)

/-- Witness for the amended C7 at the query "wid" over three products. -/
theorem list_products_search_matches_witness :
    ("wid" ≠ "" ∧ '%' ∉ lower "wid" ∧ '_' ∉ lower "wid") ∧
    ((∀ p, p ∈ filteredProducts threeProductsDB (some "wid") ↔
      (p ∈ threeProductsDB.products ∧ specProductMatches "wid" p)) ∧
    (∀ p, specProductMatches "wid" p →
      (filteredProducts threeProductsDB (some "wid")).count p =
        threeProductsDB.products.count p) ∧
    filteredProducts threeProductsDB none = threeProductsDB.products) :=
  ⟨⟨by decide, by decide, by decide⟩,
    list_products_search_matches threeProductsDB "wid" (by decide) (by decide)
      (by decide)⟩

/-- Product whose name matches the query "a_c" under LIKE but does not
contain it as a substring. -/
def wildcardProduct : ProductORM := { id := 1, name := "abc", price := 5 }

/-- One-product database for the C7 counterexample. -/
def wildcardDB : DB :=
  { products := [wildcardProduct], carts := [], cart_items := [], favorites := [] }

/-- Counterexample to C7 as stated: for the query "a_c" the filter keeps
the product named "abc" — `_` is a single-character LIKE wildcard in the
unescaped `ilike` pattern — although "abc" does not contain "a_c" as a
substring in any field. -/
theorem list_products_search_substring_counterexample :
    filteredProducts wildcardDB (some "a_c") = [wildcardProduct] ∧
    ¬ specProductMatches "a_c" wildcardProduct :=
  ⟨rfl, by decide⟩
